import Mathlib

/-!
Shallow embedding of `src/download.py` (MoroccoSentinelDownloader).

The Python module performs three network operations — authenticate
(`get_token`), search (`search_scenes`), download (`download_product`) —
plus pure helpers (`create_search_polygon`, `get_cloud_cover`) and an
orchestrator (`download_sentinel_images`) that sorts search results by
cloud cover.  Network effects are modelled by per-attempt oracles: a
function `Nat → GetResult` giving the outcome of the i-th HTTP attempt,
and a function `Nat → Bool` telling whether the i-th token refresh
succeeds.  The local file written by a download is abstracted to the
number of bytes present (`Option Nat`, `none` = no file).
-/

namespace SentinelDownloader

/-- JSON-like metadata values, classified by how Python's `float(·)`
behaves on them: `num` is a JSON number, `numStr` a string that parses
as a float, `badStr` a string that raises `ValueError`, `null` a value
(such as `None`) that raises `TypeError`. -/
inductive JVal where
  | num (x : ℚ)
  | numStr (x : ℚ)
  | badStr (s : String)
  | null
  deriving Repr, DecidableEq

/-- Python `float(v)` restricted to the values above: `some` when the
conversion succeeds, `none` when it raises `ValueError`/`TypeError`
(which `get_cloud_cover` catches). -/
def pyFloat? : JVal → Option ℚ
  | .num x => some x
  | .numStr x => some x
  | .badStr _ => none
  | .null => none

/-- One entry of a product's `Attributes` list: a dict whose `Name` and
`Value` keys may be absent (`attr.get` returns the default then). -/
structure Attr where
  name : Option String
  value : Option JVal
  deriving Repr, DecidableEq

/-- A product record from the catalogue response.  `cloudCover` models
the optional top-level `CloudCover` key; `properties` models the
optional `Properties` dict together with its optional `cloudCover` key
(`some none` = `Properties` present without a `cloudCover` key);
`attributes` models the optional `Attributes` list. -/
structure Product where
  id : String
  name : String
  cloudCover : Option JVal
  properties : Option (Option JVal)
  attributes : Option (List Attr)
  deriving Repr, DecidableEq

/-- The `for attr in product['Attributes']` loop of `get_cloud_cover`
(src/download.py lines 158-161): first attribute whose `Name` equals
`cloudCover` wins; its missing `Value` defaults to `100`; a parse
failure is caught by the surrounding `except` and yields `100`; no
match falls through to the final `return 100`. -/
def cloudFromAttrs : List Attr → ℚ
  | [] => 100
  | a :: rest =>
    if a.name = some "cloudCover" then
      match a.value with
      | none => 100
      | some v => (pyFloat? v).getD 100
    else cloudFromAttrs rest

/-- `MoroccoSentinelDownloader.get_cloud_cover` (src/download.py lines
150-164): try `CloudCover`, then `Properties['cloudCover']`, then the
`Attributes` list; default `100`, and `100` on `ValueError`/`TypeError`. -/
def get_cloud_cover (p : Product) : ℚ :=
  match p.cloudCover with
  | some v => (pyFloat? v).getD 100
  | none =>
    match p.properties with
    | some (some v) => (pyFloat? v).getD 100
    | _ =>
      match p.attributes with
      | some attrs => cloudFromAttrs attrs
      | none => 100

/-- Bounding box of a named region; the fields hold the decimal
renderings of the Python float literals, matching how the f-string in
`create_search_polygon` interpolates them. -/
structure Bounds where
  min_lon : String
  max_lon : String
  min_lat : String
  max_lat : String
  deriving Repr, DecidableEq

/-- The `regions` table of `create_search_polygon` (src/download.py
lines 56-75). -/
def regions (r : String) : Option Bounds :=
  if r = "north" then some ⟨"-7.0", "-1.0", "32.0", "36.0"⟩
  else if r = "central" then some ⟨"-13.0", "-2.0", "29.0", "32.0"⟩
  else if r = "south" then some ⟨"-13.0", "-1.0", "26.0", "29.0"⟩
  else none

/-- `MoroccoSentinelDownloader.create_search_polygon` (src/download.py
lines 53-87): `None` for an unknown region, otherwise the WKT ring
built by the f-string on lines 81-85. -/
def create_search_polygon (region : String) : Option String :=
  (regions region).map fun b =>
    "POLYGON((" ++ b.min_lon ++ " " ++ b.min_lat ++ ", " ++
    b.max_lon ++ " " ++ b.min_lat ++ ", " ++
    b.max_lon ++ " " ++ b.max_lat ++ ", " ++
    b.min_lon ++ " " ++ b.max_lat ++ ", " ++
    b.min_lon ++ " " ++ b.min_lat ++ "))"

/-- Split a character list on the two-character comma-space separator,
accumulating the current segment in reverse. -/
def splitPoints : List Char → List Char → List String
  | [], acc => [String.mk acc.reverse]
  | ',' :: ' ' :: rest, acc => String.mk acc.reverse :: splitPoints rest []
  | c :: rest, acc => splitPoints rest (c :: acc)

/-- Coordinate pairs of a WKT polygon string produced above: strip the
9-character prelude `POLYGON((` and the trailing `))`, then split on
the comma-space separator. -/
def wktPoints (s : String) : List String :=
  splitPoints ((s.data.drop 9).dropLast.dropLast) []

/-- Outcome of one HTTP GET issued by `search_scenes`: either the
transport layer raised, or a response arrived carrying a status code
and the product list parsed from the body's `value` field (that field
is only consulted when the status is 200; for other statuses the body
only feeds the exception message). -/
inductive GetResult where
  | transportError
  | response (status : Nat) (value : List Product)
  deriving Repr, DecidableEq

/-- Result of the `try` body of one search attempt (src/download.py
lines 95-138): `some products` when the GET returned status 200 (an
empty list is a valid outcome, returned as-is), `none` when an
exception was raised — a transport failure, or the explicit
`raise Exception(...)` on a non-200 status. -/
def attemptOutcome : GetResult → Option (List Product)
  | .transportError => none
  | .response status v => if status = 200 then some v else none

/-- Result of a search or download call. `result` is `.error ()` when
an exception escapes to the caller (only a `get_token` failure during
a retry can cause this), `gets` counts HTTP GET requests issued and
`refreshes` counts `get_token` calls made from the retry path. -/
structure SearchOutcome where
  result : Except Unit (List Product)
  gets : Nat
  refreshes : Nat
  deriving Repr

/-- The `for attempt in range(max_attempts)` loop of `search_scenes`
(src/download.py lines 94-148), one list element per remaining attempt
index.  Each iteration re-checks the footprint (returning `[]` for an
unknown region before any GET), issues the GET, returns the parsed
products on status 200, and otherwise — when attempts remain
(`attempt < max_attempts - 1`) — refreshes the token and retries,
propagating a `get_token` exception; on the last attempt it swallows
the error and returns `[]`. -/
def searchLoop (foot : Option String) (get : Nat → GetResult) (tok : Nat → Bool) :
    List Nat → Nat → Nat → SearchOutcome
  | [], gets, refs => ⟨.ok [], gets, refs⟩
  | a :: rest, gets, refs =>
    if foot.isNone then ⟨.ok [], gets, refs⟩
    else
      match attemptOutcome (get a) with
      | some v => ⟨.ok v, gets + 1, refs⟩
      | none =>
        match rest with
        | [] => ⟨.ok [], gets + 1, refs⟩
        | _ :: _ =>
          if tok a then searchLoop foot get tok rest (gets + 1) (refs + 1)
          else ⟨.error (), gets + 1, refs + 1⟩

/-- `MoroccoSentinelDownloader.search_scenes` (src/download.py lines
89-148): `max_attempts = 3`, so the loop runs over attempts 0, 1, 2.
`get i` is the outcome of the HTTP GET on attempt `i`; `tok i` tells
whether the `self.get_token()` refresh after failed attempt `i`
succeeds. -/
def search_scenes (region : String) (get : Nat → GetResult) (tok : Nat → Bool) :
    SearchOutcome :=
  searchLoop (create_search_polygon region) get tok [0, 1, 2] 0 0

/-- Outcome of the `try` body of one download attempt (src/download.py
lines 229-256): `ok bytes` when the streaming GET and the file write
complete (the output file then holds `bytes` bytes), `err written`
when an exception was raised at some point — `written = none` if the
output file was not yet opened, `written = some p` if the file had
been created and `p` bytes written before the failure. -/
inductive DlAttempt where
  | ok (bytes : Nat)
  | err (written : Option Nat)
  deriving Repr, DecidableEq

/-- Result of `download_product`: `result` is `.ok true` / `.ok false`
for the Python `return True` / `return False`, and `.error ()` when an
exception (from `get_token` during a retry) escapes; `attempts` counts
download attempts started, `refreshes` counts `get_token` calls, and
`fs` is the final state of the output file (bytes present, `none` =
absent). -/
structure DownloadOutcome where
  result : Except Unit Bool
  attempts : Nat
  refreshes : Nat
  fs : Option Nat
  deriving Repr

/-- Effect of one attempt on the output file: an attempt that never
opened the file leaves it as it was; one that wrote `p` bytes leaves a
`p`-byte file.  No branch ever removes the file — the code has no
cleanup path. -/
def applyWrite (fs : Option Nat) : Option Nat → Option Nat
  | none => fs
  | some p => some p

/-- The `for attempt in range(max_retries)` loop of `download_product`
(src/download.py lines 228-267): return `True` on a successful
attempt; on an exception, when attempts remain, refresh the token
(propagating its exception) and retry, else return `False`. -/
def downloadLoop (dl : Nat → DlAttempt) (tok : Nat → Bool) :
    List Nat → Nat → Option Nat → DownloadOutcome
  | [], refs, fs => ⟨.ok false, 0, refs, fs⟩
  | a :: rest, refs, fs =>
    match dl a with
    | .ok b => ⟨.ok true, a + 1, refs, some b⟩
    | .err w =>
      match rest with
      | [] => ⟨.ok false, a + 1, refs, applyWrite fs w⟩
      | _ :: _ =>
        if tok a then downloadLoop dl tok rest (refs + 1) (applyWrite fs w)
        else ⟨.error (), a + 1, refs + 1, applyWrite fs w⟩

/-- `MoroccoSentinelDownloader.download_product` (src/download.py lines
223-267): `max_retries = 3`, attempts 0, 1, 2; `fs0` is the prior
state of the output file. -/
def download_product (dl : Nat → DlAttempt) (tok : Nat → Bool) (fs0 : Option Nat) :
    DownloadOutcome :=
  downloadLoop dl tok [0, 1, 2] 0 fs0

/-- Response of the identity endpoint as seen by `get_token`:
HTTP status, raw body text, and the `access_token` field of the JSON
body (only read on status 200). -/
structure IdentityResponse where
  status : Nat
  body : String
  accessToken : String
  deriving Repr, DecidableEq

/-- The session state `get_token` installs on success: `self.token`
and `self.headers` (the Authorization header value used by every
subsequent request). -/
structure Session where
  token : String
  headers : String
  deriving Repr, DecidableEq

/-- `MoroccoSentinelDownloader.get_token` (src/download.py lines
36-51): on status 200 store the bearer token and headers, otherwise
raise `Exception("Authentication failed: " + response.text)`. -/
def get_token (resp : IdentityResponse) : Except String Session :=
  if resp.status = 200 then
    .ok ⟨resp.accessToken, "Bearer " ++ resp.accessToken⟩
  else
    .error ("Authentication failed: " ++ resp.body)

/-- Line 196 of src/download.py:
`sorted(products, key=lambda x: self.get_cloud_cover(x))` — the
orchestrator `download_sentinel_images` sorts the search results by
ascending cloud cover before downloading them in that order.  Python's
`sorted` is a stable merge sort; `List.mergeSort` matches. -/
def sorted_products (products : List Product) : List Product :=
  products.mergeSort fun a b => decide (get_cloud_cover a ≤ get_cloud_cover b)

/-! Spec-side formulation of cloud-cover extraction, following the
spec's words: "checks, in order, a top-level field, a nested
properties field, then a generic attributes list matching on a name
key; returns 100 if none match or if the value cannot be parsed as a
number" — an ordered list of extraction strategies, first success
wins, default otherwise.  `get_cloud_cover` is proved to refine it. -/

/-- Spec strategy 1: the top-level cloud-cover field. -/
def shapeTop (p : Product) : Option JVal := p.cloudCover

/-- Spec strategy 2: the nested properties field. -/
def shapeProps (p : Product) : Option JVal := p.properties.bind id

/-- Spec strategy 3: the attributes list, matched on the name key;
a present attribute with a missing value denotes the number 100. -/
def shapeAttrs (p : Product) : Option JVal :=
  (p.attributes.bind fun l => l.find? fun a => decide (a.name = some "cloudCover")).map
    fun a => a.value.getD (.num 100)

/-- The first metadata shape that matches, in spec order. -/
def firstShape (p : Product) : Option JVal :=
  (shapeTop p).orElse fun _ => (shapeProps p).orElse fun _ => shapeAttrs p

/-- Spec-side cloud cover: the first matching shape's value parsed as
a number, and 100 when no shape matches or parsing fails. -/
def specCloudCover (p : Product) : ℚ :=
  match firstShape p with
  | none => 100
  | some v => (pyFloat? v).getD 100

/-- A product whose top-level cloud-cover field holds 150: the
catalogue filter would never return it, but `get_cloud_cover` accepts
any record and performs no range check. -/
def overRangeProduct : Product :=
  ⟨"p-over", "P-OVER", some (.num 150), none, none⟩

/-- A product with an in-range top-level cloud cover of 50. -/
def midRangeProduct : Product :=
  ⟨"p-mid", "P-MID", some (.num 50), none, none⟩

/-- Four products with cloud covers 45.0, 2.3, 100 (sentinel: no
metadata shape present) and 10.0, exercising all three metadata
shapes. -/
def exProducts : List Product :=
  [⟨"a", "A", some (.num 45), none, none⟩,
   ⟨"b", "B", none, some (some (.num 2.3)), none⟩,
   ⟨"c", "C", none, none, none⟩,
   ⟨"d", "D", none, none, some [⟨some "cloudCover", some (.num 10)⟩]⟩]

/-!  Helper lemmas shared by the claim theorems. -/

/-- The attributes loop returns what the find-first formulation
returns. -/
theorem cloudFromAttrs_eq_find (l : List Attr) :
    cloudFromAttrs l =
      match l.find? fun a => decide (a.name = some "cloudCover") with
      | none => 100
      | some a => (pyFloat? (a.value.getD (.num 100))).getD 100 := by
  induction l with
  | nil => rfl
  | cons a rest ih =>
    by_cases h : a.name = some "cloudCover"
    · cases hv : a.value with
      | none => simp [cloudFromAttrs, h, hv, List.find?, pyFloat?]
      | some v => simp [cloudFromAttrs, h, hv, List.find?]
    · simp [cloudFromAttrs, h, List.find?, ih]

/-- `get_cloud_cover` agrees with the spec-side strategy-order
formulation on every product record. -/
theorem get_cloud_cover_eq_spec (p : Product) :
    get_cloud_cover p = specCloudCover p := by
  rcases p with ⟨i, n, cc, props, attrs⟩
  cases cc with
  | some v => rfl
  | none =>
    cases props with
    | some op =>
      cases op with
      | some v => rfl
      | none =>
        cases attrs with
        | none => rfl
        | some l =>
          simp only [get_cloud_cover, specCloudCover, firstShape, shapeTop, shapeProps,
            shapeAttrs, Option.orElse, Option.bind, cloudFromAttrs_eq_find]
          cases l.find? fun a => decide (a.name = some "cloudCover") <;> rfl
    | none =>
      cases attrs with
      | none => rfl
      | some l =>
        simp only [get_cloud_cover, specCloudCover, firstShape, shapeTop, shapeProps,
          shapeAttrs, Option.orElse, Option.bind, cloudFromAttrs_eq_find]
        cases l.find? fun a => decide (a.name = some "cloudCover") <;> rfl

/-- Claim C1: for every region, dates and cloud threshold, if the
search endpoint fails (non-200 status or transport exception) on all
3 attempts, `search_scenes` returns an empty sequence and no
exception escapes to the caller (all 3 GETs are issued and the 2
inter-attempt token refreshes succeed). -/
theorem search_scenes_all_attempts_fail (region : String)
    (get : Nat → GetResult) (tok : Nat → Bool)
    (hreg : (create_search_polygon region).isSome = true)
    (hfail : ∀ i, attemptOutcome (get i) = none)
    (htok : ∀ i, tok i = true) :
    search_scenes region get tok = ⟨.ok [], 3, 2⟩ := by
  obtain ⟨f, hf⟩ := Option.isSome_iff_exists.mp hreg
  simp [search_scenes, searchLoop, hf, hfail 0, hfail 1, hfail 2, htok 0, htok 1]

/-- Witness for C1: the north region with a transport error on every
attempt and successful token refreshes. -/
theorem search_scenes_all_attempts_fail_witness :
    search_scenes "north" (fun _ => .transportError) (fun _ => true) = ⟨.ok [], 3, 2⟩ :=
  search_scenes_all_attempts_fail "north" (fun _ => .transportError) (fun _ => true)
    rfl (fun _ => rfl) (fun _ => rfl)

/-- Claim C5: if the search endpoint returns HTTP 500 on the first
two attempts and HTTP 200 with body value `[]` on the third,
`search_scenes` returns an empty sequence and performs exactly 2
token refreshes. -/
theorem search_scenes_exactly_two_refreshes (region : String)
    (get : Nat → GetResult) (tok : Nat → Bool) (v0 v1 : List Product)
    (hreg : (create_search_polygon region).isSome = true)
    (h0 : get 0 = .response 500 v0)
    (h1 : get 1 = .response 500 v1)
    (h2 : get 2 = .response 200 [])
    (htok : ∀ i, tok i = true) :
    search_scenes region get tok = ⟨.ok [], 3, 2⟩ := by
  obtain ⟨f, hf⟩ := Option.isSome_iff_exists.mp hreg
  simp [search_scenes, searchLoop, attemptOutcome, hf, h0, h1, h2, htok 0, htok 1]

/-- Witness for C5: the north region, two 500 responses then a 200
with an empty value list. -/
theorem search_scenes_exactly_two_refreshes_witness :
    search_scenes "north"
      (fun i => if i < 2 then .response 500 [] else .response 200 []) (fun _ => true) =
      ⟨.ok [], 3, 2⟩ :=
  search_scenes_exactly_two_refreshes "north"
    (fun i => if i < 2 then .response 500 [] else .response 200 []) (fun _ => true)
    [] [] rfl rfl rfl rfl (fun _ => rfl)

/-- Claim C8: for every region name outside the supported set,
`create_search_polygon` returns no result, and `search_scenes`
returns an empty sequence without issuing any HTTP GET and without
any retry or token refresh. -/
theorem search_scenes_unknown_region (region : String)
    (get : Nat → GetResult) (tok : Nat → Bool)
    (h1 : region ≠ "north") (h2 : region ≠ "central") (h3 : region ≠ "south") :
    create_search_polygon region = none ∧
    search_scenes region get tok = ⟨.ok [], 0, 0⟩ := by
  have hp : create_search_polygon region = none := by
    simp [create_search_polygon, regions, h1, h2, h3]
  exact ⟨hp, by simp [search_scenes, searchLoop, hp]⟩

/-- Witness for C8: the unsupported region name `west`. -/
theorem search_scenes_unknown_region_witness :
    create_search_polygon "west" = none ∧
    search_scenes "west" (fun _ => .transportError) (fun _ => true) = ⟨.ok [], 0, 0⟩ :=
  search_scenes_unknown_region "west" (fun _ => .transportError) (fun _ => true)
    (by decide) (by decide) (by decide)

/-- Claim C2: for every product and output directory, if the download
endpoint raises on every attempt, `download_product` returns false
after exactly 3 attempts, and no partial-file cleanup is performed:
the output file ends in exactly the state the attempts' writes left
it, so an incomplete file written by the last attempt remains on
disk. -/
theorem download_product_all_attempts_fail
    (dl : Nat → DlAttempt) (tok : Nat → Bool) (fs0 : Option Nat) (w : Nat → Option Nat)
    (hfail : ∀ i, dl i = .err (w i))
    (htok : ∀ i, tok i = true) :
    download_product dl tok fs0 =
      ⟨.ok false, 3, 2, applyWrite (applyWrite (applyWrite fs0 (w 0)) (w 1)) (w 2)⟩ ∧
    ∀ p, w 2 = some p → (download_product dl tok fs0).fs = some p := by
  have h : download_product dl tok fs0 =
      ⟨.ok false, 3, 2, applyWrite (applyWrite (applyWrite fs0 (w 0)) (w 1)) (w 2)⟩ := by
    simp [download_product, downloadLoop, hfail 0, hfail 1, hfail 2, htok 0, htok 1]
  refine ⟨h, fun p hp => ?_⟩
  rw [h, hp]
  rfl

/-- Witness for C2: every attempt raises after writing 5 bytes; the
result is false after 3 attempts and a 5-byte partial file remains. -/
theorem download_product_all_attempts_fail_witness :
    download_product (fun _ => .err (some 5)) (fun _ => true) none =
      ⟨.ok false, 3, 2, applyWrite (applyWrite (applyWrite none (some 5)) (some 5)) (some 5)⟩ ∧
    ∀ p, (some 5 : Option Nat) = some p →
      (download_product (fun _ => .err (some 5)) (fun _ => true) none).fs = some p :=
  download_product_all_attempts_fail (fun _ => .err (some 5)) (fun _ => true) none
    (fun _ => some 5) (fun _ => rfl) (fun _ => rfl)

/-- Claim C10 (implicit): the error-suppression guarantee of
`search_scenes` and `download_product` holds only while the token
refresh before each retry succeeds; if `get_token` raises during a
retry, that exception propagates to the caller instead of being
converted to an empty sequence or false. -/
theorem token_refresh_failure_propagates (region : String)
    (get : Nat → GetResult) (tok : Nat → Bool)
    (dl : Nat → DlAttempt) (dtok : Nat → Bool) (fs0 w : Option Nat)
    (hreg : (create_search_polygon region).isSome = true)
    (hget : attemptOutcome (get 0) = none)
    (htok : tok 0 = false)
    (hdl : dl 0 = .err w)
    (hdtok : dtok 0 = false) :
    (search_scenes region get tok).result = .error () ∧
    (download_product dl dtok fs0).result = .error () := by
  obtain ⟨f, hf⟩ := Option.isSome_iff_exists.mp hreg
  constructor
  · simp [search_scenes, searchLoop, hf, hget, htok]
  · simp [download_product, downloadLoop, hdl, hdtok]

/-- Witness for C10: a failed first attempt followed by a failing
token refresh makes both operations propagate the exception. -/
theorem token_refresh_failure_propagates_witness :
    (search_scenes "north" (fun _ => .transportError) (fun _ => false)).result = .error () ∧
    (download_product (fun _ => .err none) (fun _ => false) none).result = .error () :=
  token_refresh_failure_propagates "north" (fun _ => .transportError) (fun _ => false)
    (fun _ => .err none) (fun _ => false) none none rfl rfl rfl rfl rfl

/-- Claim C3: for every product record, `get_cloud_cover` checks in
order the top-level cloud-cover field, the nested properties field,
then the attributes list matched on the name key, returns the first
value found parsed as a number, and returns exactly 100 when none of
the three shapes is present or the found value cannot be parsed as a
number — i.e. it coincides with the spec-side strategy-order
formulation `specCloudCover`. -/
theorem get_cloud_cover_checks_shapes_in_order (p : Product) :
    get_cloud_cover p = specCloudCover p :=
  get_cloud_cover_eq_spec p

/-- Claim C4 counterexample: the claim says every produced
cloud-cover value lies in the interval 0..100 (or is the sentinel
100), but on a record whose top-level field holds 150 the function
returns 150, which is outside the interval and not the sentinel. -/
theorem get_cloud_cover_out_of_range :
    get_cloud_cover overRangeProduct = 150 ∧
    ¬ (get_cloud_cover overRangeProduct ≤ 100) := by
  refine ⟨rfl, ?_⟩
  rw [show get_cloud_cover overRangeProduct = (150 : ℚ) from rfl]
  norm_num

/-- Claim C4 (amended): `get_cloud_cover` performs no clamping, so
its result lies in the interval 0..100 only under the assumption that
every parseable cloud-cover value the record carries in its first
matching shape lies in that interval; when no value is found, or it
cannot be parsed, the in-range sentinel 100 is returned. -/
theorem get_cloud_cover_in_range (p : Product)
    (h : ∀ v x, firstShape p = some v → pyFloat? v = some x → 0 ≤ x ∧ x ≤ 100) :
    0 ≤ get_cloud_cover p ∧ get_cloud_cover p ≤ 100 := by
  rw [get_cloud_cover_eq_spec]
  unfold specCloudCover
  cases hfs : firstShape p with
  | none => norm_num
  | some v =>
    cases hx : pyFloat? v with
    | none => simp only [hx, Option.getD_none]; norm_num
    | some x => simpa [hx] using h v x hfs hx

/-- Witness for amended C4: a record with top-level cloud cover 50. -/
theorem get_cloud_cover_in_range_witness :
    0 ≤ get_cloud_cover midRangeProduct ∧ get_cloud_cover midRangeProduct ≤ 100 := by
  refine get_cloud_cover_in_range midRangeProduct ?_
  intro v x hv hx
  rw [show firstShape midRangeProduct = some (.num 50) from rfl] at hv
  cases hv
  rw [show pyFloat? (.num 50) = some (50 : ℚ) from rfl] at hx
  cases hx
  norm_num

/-- Claim C6: authentication fails exactly when the identity endpoint
returns a non-success (non-200) status, the raised error message
includes the raw response body, and on success the bearer token from
the response is stored together with the Authorization header used by
all subsequent requests. -/
theorem get_token_auth_contract (resp : IdentityResponse) :
    (resp.status = 200 →
      get_token resp = .ok ⟨resp.accessToken, "Bearer " ++ resp.accessToken⟩) ∧
    (resp.status ≠ 200 →
      ∃ msg, get_token resp = .error msg ∧ ∃ s, msg = s ++ resp.body) := by
  constructor
  · intro h
    simp [get_token, h]
  · intro h
    exact ⟨"Authentication failed: " ++ resp.body, by simp [get_token, h],
      "Authentication failed: ", rfl⟩

/-- Witness for C6: a 200 response stores the token; a 401 response
fails with a message containing the body. -/
theorem get_token_auth_contract_witness :
    get_token ⟨200, "", "tok-1"⟩ = .ok ⟨"tok-1", "Bearer tok-1"⟩ ∧
    ∃ msg, get_token ⟨401, "denied", ""⟩ = .error msg ∧ ∃ s, msg = s ++ "denied" :=
  ⟨(get_token_auth_contract ⟨200, "", "tok-1"⟩).1 rfl,
   (get_token_auth_contract ⟨401, "denied", ""⟩).2 (by decide)⟩

/-- Claim C7: for every supported region name, `create_search_polygon`
returns a well-formed closed WKT ring: its coordinate list has exactly
5 points and the first and last points are identical. -/
theorem create_search_polygon_closed_ring (region : String)
    (h : region = "north" ∨ region = "central" ∨ region = "south") :
    ∃ poly, create_search_polygon region = some poly ∧
      (wktPoints poly).length = 5 ∧
      (wktPoints poly).head? = (wktPoints poly).getLast? := by
  rcases h with h | h | h <;> subst h
  · exact ⟨"POLYGON((-7.0 32.0, -1.0 32.0, -1.0 36.0, -7.0 36.0, -7.0 32.0))",
      by decide, by decide, by decide⟩
  · exact ⟨"POLYGON((-13.0 29.0, -2.0 29.0, -2.0 32.0, -13.0 32.0, -13.0 29.0))",
      by decide, by decide, by decide⟩
  · exact ⟨"POLYGON((-13.0 26.0, -1.0 26.0, -1.0 29.0, -13.0 29.0, -13.0 26.0))",
      by decide, by decide, by decide⟩

/-- Witness for C7: the north region. -/
theorem create_search_polygon_closed_ring_witness :
    ∃ poly, create_search_polygon "north" = some poly ∧
      (wktPoints poly).length = 5 ∧
      (wktPoints poly).head? = (wktPoints poly).getLast? :=
  create_search_polygon_closed_ring "north" (Or.inl rfl)

/-- Claim C9: the orchestrator sorts the search results ascending by
the cloud cover computed by `get_cloud_cover` before invoking
download — the sorted list's cloud covers are pairwise nondecreasing,
the sort is a permutation of the input, and the concrete list with
cloud covers 45.0, 2.3, 100, 10.0 is processed in the order
2.3, 10.0, 45.0, 100. -/
theorem orchestrator_sorts_by_cloud_cover :
    (∀ ps : List Product,
      ((sorted_products ps).map get_cloud_cover).Sorted (fun a b => a ≤ b)) ∧
    (∀ ps : List Product, List.Perm (sorted_products ps) ps) ∧
    (sorted_products exProducts).map get_cloud_cover = [2.3, 10, 45, 100] := by
  have hsortedAll : ∀ ps : List Product,
      ((sorted_products ps).map get_cloud_cover).Sorted (fun a b => a ≤ b) := by
    intro ps
    have htrans : ∀ a b c : Product,
        decide (get_cloud_cover a ≤ get_cloud_cover b) = true →
        decide (get_cloud_cover b ≤ get_cloud_cover c) = true →
        decide (get_cloud_cover a ≤ get_cloud_cover c) = true := by
      intro a b c hab hbc
      simp only [decide_eq_true_eq] at *
      exact le_trans hab hbc
    have htotal : ∀ a b : Product,
        (decide (get_cloud_cover a ≤ get_cloud_cover b) ||
         decide (get_cloud_cover b ≤ get_cloud_cover a)) = true := by
      intro a b
      simp only [Bool.or_eq_true, decide_eq_true_eq]
      exact le_total _ _
    have h : (List.mergeSort ps fun a b =>
          decide (get_cloud_cover a ≤ get_cloud_cover b)).Pairwise
        (fun a b => decide (get_cloud_cover a ≤ get_cloud_cover b) = true) :=
      List.sorted_mergeSort htrans htotal ps
    have h2 : (List.mergeSort ps fun a b =>
          decide (get_cloud_cover a ≤ get_cloud_cover b)).Pairwise
        (fun a b => get_cloud_cover a ≤ get_cloud_cover b) :=
      h.imp fun hab => by simpa using hab
    simpa [sorted_products, List.Sorted, List.pairwise_map] using h2
  refine ⟨hsortedAll, fun ps => List.mergeSort_perm ps _, ?_⟩
  have hmap : List.map get_cloud_cover exProducts = [45, 2.3, 100, 10] := rfl
  have hperm : ((sorted_products exProducts).map get_cloud_cover).Perm
      [(45 : ℚ), 2.3, 100, 10] := by
    rw [← hmap]
    exact (List.mergeSort_perm exProducts _).map get_cloud_cover
  have hperm2 : [(45 : ℚ), 2.3, 100, 10].Perm [2.3, 10, 45, 100] := by
    refine (List.Perm.swap 2.3 45 [100, 10]).trans (List.Perm.cons 2.3 ?_)
    exact (List.Perm.cons 45 (List.Perm.swap 10 100 [])).trans (List.Perm.swap 10 45 [100])
  have hsorted2 : ([(2.3 : ℚ), 10, 45, 100]).Sorted (fun a b => a ≤ b) := by
    norm_num [List.sorted_cons]
  exact List.eq_of_perm_of_sorted (hperm.trans hperm2) (hsortedAll exProducts) hsorted2

end SentinelDownloader
